import Mathlib

/-!
Verification of the portfolio-website HTTP server (`server.js`, provided as
`src/unnamed/part_002`, with a sibling variant in `src/My-Nodesite/server.js`).

The development shallowly embeds the server's pure request-handling logic:
cookie lookup, session resolution, the path-join / traversal check used by
the static-file branch, the projects CRUD handlers (file-storage mode, where
`pgClient` is null), the OAuth callback state machine, and the SQL-backed
metrics counters.  Machine integers do not occur; JavaScript strings are
modelled as Lean `String`, JS `Map`/`Set` as association lists / lists
without duplicates, and absent JSON fields as `Option`.
-/

namespace Portfolio

/-! ## Strings and path handling -/

/-- Character-list prefix test (`pre` is a prefix of `s`), the semantics of
JavaScript `String.prototype.startsWith`. -/
def charsLe : List Char → List Char → Bool
  | [], _ => true
  | _ :: _, [] => false
  | a :: pre, b :: s => a = b && charsLe pre s

/-- JS `s.startsWith(pre)`. -/
def strStarts (s pre : String) : Bool := charsLe pre.data s.data

/-- Split a character list at every separator character; separators are
dropped and the pieces (possibly empty) are returned in order. -/
def splitAcc (sep : Char → Bool) (acc : List Char) : List Char → List String
  | [] => [String.mk acc.reverse]
  | c :: rest =>
    if sep c then String.mk acc.reverse :: splitAcc sep [] rest
    else splitAcc sep (c :: acc) rest

/-- The nonempty `/`-separated segments of a path (JS
`urlPath.split("/").filter(Boolean)`). -/
def pathSegs (s : String) : List String :=
  (splitAcc (fun c => c = '/') [] s.data).filter (fun t => t ≠ "")

/-- One pass of POSIX path normalisation over segments, as done by Node's
`path.normalize` for an absolute path: `.` and empty segments are dropped,
`..` pops the previous segment (and is dropped at the root). -/
def normSegs (acc : List String) : List String → List String
  | [] => acc.reverse
  | seg :: rest =>
    if seg = "" ∨ seg = "." then normSegs acc rest
    else if seg = ".." then
      match acc with
      | [] => normSegs [] rest
      | _ :: tl => normSegs tl rest
    else normSegs (seg :: acc) rest

/-- Node `path.join(base, target)` for an absolute `base`: concatenate with a
separator and normalise. -/
def pathJoin (base target : String) : String :=
  "/" ++ String.intercalate "/" (normSegs [] (pathSegs (base ++ "/" ++ target)))

/-- `safeJoin` of `src/unnamed/part_002` (lines 41–45): join and keep the
result only when the resolved string starts with `base`.  The comment in the
source reads "prevent path traversal". -/
def safeJoin (base target : String) : Option String :=
  let resolved := pathJoin base target
  if strStarts resolved base then some resolved else none

/-- Drop the common leading segments of two segment lists. -/
def dropCommon : List String → List String → List String × List String
  | a :: as, b :: bs => if a = b then dropCommon as bs else (a :: as, b :: bs)
  | as, bs => (as, bs)

/-- `safeJoin` of `src/My-Nodesite/server.js` (lines 88–96): join, compute
`path.relative(base, result)` and keep the result only when the relative
path is nonempty and does not start with `..` (the `path.isAbsolute` test
never fires for a POSIX relative path). -/
def safeJoinRel (base target : String) : Option String :=
  let result := pathJoin base target
  let pr := dropCommon (normSegs [] (pathSegs base)) (normSegs [] (pathSegs result))
  let rel := String.intercalate "/" (List.replicate pr.1.length ".." ++ pr.2)
  if rel ≠ "" ∧ strStarts rel ".." = false then some result else none

/-- A file path lies under the directory `base`: it is `base` itself or has
`base ++ "/"` as a prefix. -/
def underRoot (base fp : String) : Bool :=
  decide (fp = base) || strStarts fp (base ++ "/")

/-! ## Cookies and sessions

`parseCookies` in the source builds a JS object in which a later duplicate
cookie name overwrites an earlier one, so lookup returns the last binding.
A JS `Map` has unique keys; `sessions` is modelled as an association list
looked up by first (unique) key. -/

/-- Value of cookie `k` (last binding wins, as in the JS `reduce`). -/
def getCookie (cs : List (String × String)) (k : String) : Option String :=
  ((cs.filter (fun kv => decide (kv.1 = k))).getLast?).map (fun kv => kv.2)

/-- The user part of a stored session (`sessions.set(sid, { user, exp })`). -/
inductive SessionUser
  | github (username : String) (ghId : Nat) (avatar : String)
  deriving DecidableEq, Repr

/-- A stored session: user plus expiry timestamp in milliseconds. -/
structure StoredSession where
  user : SessionUser
  exp : Nat
  deriving DecidableEq, Repr

/-- `sessions.get sid` on the in-memory map. -/
def lookupSid (store : List (String × StoredSession)) (sid : String) :
    Option StoredSession :=
  (store.find? (fun kv => decide (kv.1 = sid))).map (fun kv => kv.2)

/-- What `getSession` can return: a stored session, or the legacy fallback
object `{ user: { provider: "local", name: "admin" }, legacy: true }`. -/
inductive SessionVal
  | stored (s : StoredSession)
  | legacy (provider name : String)
  deriving DecidableEq, Repr

/-- `getSession` of `src/unnamed/part_002` (lines 197–206): a truthy `sid`
cookie naming an unexpired stored session wins; otherwise the legacy
fallback fires exactly when the `session` cookie equals `"1"`. -/
def getSession (store : List (String × StoredSession))
    (cookies : List (String × String)) (now : Nat) : Option SessionVal :=
  let viaSid : Option SessionVal :=
    match getCookie cookies "sid" with
    | some sid =>
      if sid = "" then none
      else

        match lookupSid store sid with
        | some s => if now < s.exp then some (.stored s) else none
        | none => none
    | none => none
  match viaSid with
  | some s => some s
  | none =>
    if getCookie cookies "session" = some "1" then
      some (.legacy "local" "admin")
    else none

/-! ## Project records (file-storage mode) -/

/-- The `tags` value of a stored record.  In file mode the JSON document can
hold either a list (as written by create) or a raw string (as written by an
update whose body carried a string `tags`). -/
inductive TagsField
  | list (l : List String)
  | str (s : String)
  deriving DecidableEq, Repr

/-- A project record as stored in `data/projects.json`. -/
structure Project where
  id : String
  name : String
  description : String
  repoUrl : String
  websiteUrl : String
  type : String
  tags : TagsField
  status : String
  createdAt : String
  updatedAt : String
  featured : Bool
  image : String
  deriving DecidableEq, Repr

/-- The `tags` value of a parsed request body: absent, a string, or a list. -/
inductive TagsInput
  | absent
  | str (s : String)
  | list (l : List String)
  deriving DecidableEq, Repr

/-- A parsed JSON request body for the projects endpoints; `none` means the
key was absent.  (Only the documented project fields are modelled.) -/
structure ProjectInput where
  id : Option String := none
  name : Option String := none
  description : Option String := none
  repoUrl : Option String := none
  websiteUrl : Option String := none
  type : Option String := none
  tags : TagsInput := .absent
  status : Option String := none
  featured : Option Bool := none
  image : Option String := none
  deriving DecidableEq, Repr

/-- JS `v || d` for an optional string field: absent and the empty string
are both falsy. -/
def orDefault (v : Option String) (d : String) : String :=
  match v with
  | some s => if s = "" then d else s
  | none => d

/-- Tag-separator characters of the regex `/[,\s]+/` (ASCII whitespace). -/
def isTagSep (c : Char) : Bool :=
  c = ',' || c = ' ' || c = '\t' || c = '\n' || c = '\r'

/-- JS `String(tags).split(/[,\s]+/).filter(Boolean)`. -/
def splitTags (s : String) : List String :=
  (splitAcc isTagSep [] s.data).filter (fun t => t ≠ "")

/-- Tags normalisation of the create handler (line 469):
`Array.isArray(tags) ? tags : (tags ? String(tags).split(/[,\s]+/).filter(Boolean) : [])`. -/
def normTags : TagsInput → List String
  | .list l => l
  | .str s => if s = "" then [] else splitTags s
  | .absent => []

/-- Characters kept by the id sanitiser's character class `[a-z0-9-_]`. -/
def idChar (c : Char) : Bool :=
  decide (('a' ≤ c ∧ c ≤ 'z') ∨ ('0' ≤ c ∧ c ≤ '9') ∨ c = '-' ∨ c = '_')

/-- `(…).toString().toLowerCase().replace(/[^a-z0-9-_]/g, "-")`. -/
def sanitizeId (s : String) : String :=
  String.mk ((s.data.map Char.toLower).map (fun c => if idChar c then c else '-'))

/-- The record built by `POST /api/projects` (lines 461–475): defaults for
falsy fields, normalised tags, `createdAt = updatedAt = now`, id generated
from `Date.now()` when the supplied one is falsy, then sanitised. -/
def mkNewItem (data : ProjectInput) (nowMs : Nat) (nowIso : String) : Project :=
  { id := sanitizeId (orDefault data.id (Nat.repr nowMs))
    name := orDefault data.name "Untitled"
    description := orDefault data.description ""
    repoUrl := orDefault data.repoUrl ""
    websiteUrl := orDefault data.websiteUrl ""
    type := orDefault data.type "other"
    tags := .list (normTags data.tags)
    status := orDefault data.status "active"
    createdAt := nowIso
    updatedAt := nowIso
    featured := data.featured.getD false
    image := orDefault data.image "" }

/-- `{ ...list[idx], ...data, id, updatedAt: now }` of the file-mode update
(line 513): every present body field overwrites (even with an empty string),
`id` and `createdAt` are kept, `updatedAt` is refreshed. -/
def applyUpdate (old : Project) (data : ProjectInput) (id nowIso : String) :
    Project :=
  { id := id
    name := data.name.getD old.name
    description := data.description.getD old.description
    repoUrl := data.repoUrl.getD old.repoUrl
    websiteUrl := data.websiteUrl.getD old.websiteUrl
    type := data.type.getD old.type
    tags :=
      match data.tags with
      | .absent => old.tags
      | .str s => .str s
      | .list l => .list l
    status := data.status.getD old.status
    createdAt := old.createdAt
    updatedAt := nowIso
    featured := data.featured.getD old.featured
    image := data.image.getD old.image }

/-- `list.findIndex(p => p.id === id)` followed by in-place replacement:
returns the updated list and record, or `none` when no record matches. -/
def updateList (data : ProjectInput) (id nowIso : String) :
    List Project → Option (List Project × Project)
  | [] => none
  | q :: rest =>
    if q.id = id then
      some (applyUpdate q data id nowIso :: rest, applyUpdate q data id nowIso)
    else
      match updateList data id nowIso rest with
      | some (l, u) => some (q :: l, u)
      | none => none

/-! ## The HTTP router (file-storage mode, `pgClient` null) -/

/-- The mutable server state touched by the routed handlers: the file-backed
project list and the in-memory session map. -/
structure Srv where
  projects : List Project
  sessions : List (String × StoredSession)
  deriving DecidableEq, Repr

/-- An incoming request after Node's parsing: method, decoded path (query
string already stripped), parsed cookies and parsed JSON body. -/
structure Request where
  method : String
  urlPath : String
  cookies : List (String × String)
  body : ProjectInput
  deriving DecidableEq, Repr

/-- What the server replies with, by branch.  `oauthCase` marks the two
`/auth/github/…` branches, whose state machine is modelled separately by
`callbackStep`; `staticPipeline fp` means the request reached the
static-file code with candidate path `fp` (`fs.stat`, serve or SPA
fallback). -/
inductive Reply
  | redirect (loc : String)
  | oauthCase
  | json (code : Nat)
  | jsonErr (code : Nat) (msg : String)
  | jsonProjects (code : Nat) (ps : List Project)
  | jsonProject (code : Nat) (p : Project)
  | view204
  | plainText (code : Nat)
  | staticPipeline (fp : String)
  deriving DecidableEq, Repr

/-- The `/api/projects…` handlers (lines 442–532), file mode: the two `GET`
branches are open, all mutations sit behind the `isAuthed` gate, and
anything else gets the 405 fallback. -/
def projectsApi (srv : Srv) (m : String) (idOpt : Option String)
    (body : ProjectInput) (isAuthed : Bool) (nowMs : Nat) (nowIso : String) :
    Srv × Reply :=
  if m = "GET" then
    match idOpt with
    | none => (srv, .jsonProjects 200 srv.projects)
    | some i =>
      match srv.projects.find? (fun q => decide (q.id = i)) with
      | none => (srv, .jsonErr 404 "Not found")
      | some q => (srv, .jsonProject 200 q)
  else if isAuthed = false then
    (srv, .jsonErr 401 "Unauthorized")
  else if m = "POST" ∧ idOpt = none then
    let item := mkNewItem body nowMs nowIso
    ({ srv with projects := srv.projects ++ [item] }, .jsonProject 201 item)
  else if m = "PUT" ∨ m = "PATCH" then
    match idOpt with
    | some i =>
      match updateList body i nowIso srv.projects with
      | none => (srv, .jsonErr 404 "Not found")
      | some (l, u) => ({ srv with projects := l }, .jsonProject 200 u)
    | none => (srv, .jsonErr 405 "Method not allowed")
  else if m = "DELETE" then
    match idOpt with
    | some i =>
      ({ srv with projects := srv.projects.filter (fun q => decide (q.id ≠ i)) },
       .json 204)
    | none => (srv, .jsonErr 405 "Method not allowed")
  else (srv, .jsonErr 405 "Method not allowed")

/-- The request dispatcher of `src/unnamed/part_002` (lines 273–576) in
file-storage mode, with branches in source order.  `now`/`nowMs` are
`Date.now()` in milliseconds, `nowIso` the ISO timestamp string, `pubDir`
the `PUBLIC_DIR` constant. -/
def handle (srv : Srv) (req : Request) (now nowMs : Nat)
    (nowIso pubDir : String) : Srv × Reply :=
  let cookies := req.cookies
  let isAuthed := (getSession srv.sessions cookies now).isSome
  let m := req.method
  let p := req.urlPath
  if m = "GET" ∧ p = "/logout" then
    let sessions' :=
      match getCookie cookies "sid" with
      | some sid =>
        if sid = "" then srv.sessions
        else srv.sessions.filter (fun kv => decide (kv.1 ≠ sid))
      | none => srv.sessions
    ({ srv with sessions := sessions' }, .redirect "/login")
  else if m = "GET" ∧ (p = "/login" ∨ p = "/login.html") then
    (srv, if isAuthed then .redirect "/" else .redirect "/?login=1")
  else if m = "GET" ∧ p = "/auth/github/login" then (srv, .oauthCase)
  else if m = "GET" ∧ p = "/auth/github/callback" then (srv, .oauthCase)
  else if m = "GET" ∧ p = "/api/me" then (srv, .json 200)
  else if m = "POST" ∧ p = "/api/metrics/view" then
    -- file mode: no counters are kept, the handler just answers 204
    (srv, .view204)
  else if m = "GET" ∧ p = "/api/metrics/summary" then (srv, .json 200)
  else if strStarts p "/api/projects" then
    projectsApi srv m ((pathSegs p).get? 2) req.body isAuthed nowMs nowIso
  else if m = "GET" ∧ p = "/admin" then (srv, .redirect "/")
  else
    let fpOpt :=
      if p = "/" then some (pathJoin pubDir "index.html") else safeJoin pubDir p
    match fpOpt with
    | none => (srv, .plainText 400)
    | some fp => (srv, .staticPipeline fp)

/-! ## The OAuth callback state machine

`GET /auth/github/callback` (lines 311–368).  The two outbound HTTPS calls
are nondeterministic from the server's point of view; their results (or a
thrown network error, caught by the surrounding `try`) are inputs of the
step function. -/

/-- JS truthiness of an optional query-string value. -/
def truthyStr : Option String → Bool
  | some s => s ≠ ""
  | none => false

/-- The server-visible outcome of the two calls to the identity provider. -/
structure OAuthEnv where
  /-- one of the awaited calls threw (handled by the `catch`) -/
  netError : Bool
  /-- `tokenResp.access_token` -/
  accessToken : Option String
  /-- `ghUser.login` -/
  ghLogin : Option String
  ghId : Nat
  ghAvatar : String
  deriving DecidableEq, Repr

/-- The state the OAuth flow touches: the pending-state set and the session
map. -/
structure AuthState where
  oauthStates : List String
  sessions : List (String × StoredSession)
  deriving DecidableEq, Repr

/-- `Set.prototype.delete` (pending states hold no duplicates). -/
def setRemove (l : List String) (s : String) : List String :=
  l.filter (fun x => decide (x ≠ s))

/-- `Map.prototype.set` on the session map. -/
def mapSet (m : List (String × StoredSession)) (k : String)
    (v : StoredSession) : List (String × StoredSession) :=
  if m.any (fun kv => decide (kv.1 = k)) then
    m.map (fun kv => if kv.1 = k then (k, v) else kv)
  else m ++ [(k, v)]

/-- One run of the callback handler.  `codeQ`/`stateQ` are the query
parameters, `adminUser` the lowercased `ADMIN_GITHUB_USER` (`""` when no
allow-list is configured), `sid` the freshly generated session id, `ttl`
`SESSION_TTL_SECONDS`. -/
def callbackStep (st : AuthState) (codeQ stateQ : Option String)
    (env : OAuthEnv) (adminUser sid : String) (now ttl : Nat) :
    AuthState × Reply :=
  if truthyStr codeQ = false ∨ truthyStr stateQ = false ∨
      stateQ.getD "" ∉ st.oauthStates then
    (st, .redirect "/?login=1&error=oauth_state")
  else
    let st1 : AuthState :=
      { st with oauthStates := setRemove st.oauthStates (stateQ.getD "") }
    if env.netError then (st1, .redirect "/?login=1&error=oauth_error")
    else if truthyStr env.accessToken = false then
      (st1, .redirect "/?login=1&error=oauth_token")
    else
      let username := env.ghLogin.getD ""
      if username = "" then (st1, .redirect "/?login=1&error=oauth_user")
      else if adminUser ≠ "" ∧ username.toLower ≠ adminUser then
        (st1, .redirect "/?login=1&error=unauthorized")
      else
        ({ st1 with
            sessions :=
              mapSet st1.sessions sid
                ⟨.github username env.ghId env.ghAvatar, now + ttl * 1000⟩ },
         .redirect "/")

/-! ## The metrics counters (SQL mode)

`POST /api/metrics/view` (lines 378–405) updates the `metrics_daily` and
`metrics_uniques` tables; the `(day, page)` and `(day, page, vid)` primary
keys are modelled as lists kept free of key duplicates by the insert-if-
absent steps. -/

/-- A `metrics_daily` row. -/
structure DailyRow where
  day : String
  page : String
  views : Nat
  uniques : Nat
  deriving DecidableEq, Repr

/-- The two metrics tables. -/
structure MetricsState where
  daily : List DailyRow
  seen : List (String × String × String)
  deriving DecidableEq, Repr

/-- The `where day=d and page=p` condition on a `metrics_daily` row. -/
def rowKey (d p : String) (r : DailyRow) : Bool := decide (r.day = d ∧ r.page = p)

/-- `insert into metrics_daily(day,page,views,uniques) values (d,p,0,0) on
conflict (day,page) do nothing`. -/
def ensureRow (d p : String) (l : List DailyRow) : List DailyRow :=
  if l.any (rowKey d p) then l
  else l ++ [⟨d, p, 0, 0⟩]

/-- `update metrics_daily set views = views + 1 where day=d and page=p`. -/
def bumpViews (d p : String) (l : List DailyRow) : List DailyRow :=
  l.map (fun r => if rowKey d p r then { r with views := r.views + 1 } else r)

/-- `update metrics_daily set uniques = uniques + 1 where day=d and page=p`. -/
def bumpUniques (d p : String) (l : List DailyRow) : List DailyRow :=
  l.map (fun r => if rowKey d p r then { r with uniques := r.uniques + 1 } else r)

/-- The whole view-beacon transaction: ensure the `(day,page)` row, bump its
views, and bump its uniques exactly when inserting `(day,page,vid)` into
`metrics_uniques` affected a row (`u.rowCount > 0`). -/
def recordView (st : MetricsState) (d p v : String) : MetricsState :=
  let d1 := bumpViews d p (ensureRow d p st.daily)
  if (d, p, v) ∈ st.seen then { daily := d1, seen := st.seen }
  else { daily := bumpUniques d p d1, seen := st.seen ++ [(d, p, v)] }

/-- The `(views, uniques)` pair of the `(day,page)` counter, `(0,0)` when
the row does not exist. -/
def getCounter (st : MetricsState) (d p : String) : Nat × Nat :=
  match st.daily.find? (rowKey d p) with
  | some r => (r.views, r.uniques)
  | none => (0, 0)

/-- Visitor-id resolution of the beacon handler: a nonempty `vid` cookie is
reused, otherwise a fresh random id is minted. -/
def resolveVid (vidCookie : Option String) (minted : String) : String :=
  match vidCookie with
  | some v => if v ≠ "" then v else minted
  | none => minted

/-! ## Classification helpers and concrete fixtures -/

/-- The reply came from the static-file code at the bottom of the
dispatcher: either the 400 "Bad request" text or the stat/serve/SPA
pipeline. -/
def isStaticBranch : Reply → Bool
  | .staticPipeline _ => true
  | .plainText 400 => true
  | _ => false

/-- A session map holding one unexpired GitHub session `s1`. -/
def sessA : List (String × StoredSession) := [("s1", ⟨.github "admin" 1 "", 10⟩)]

/-- Cookies presenting the stored session `s1`. -/
def ckSid : List (String × String) := [("sid", "s1")]

/-- Cookies presenting only the legacy `session=1` value. -/
def ckLeg : List (String × String) := [("session", "1")]

/-- A concrete stored project with id `alpha`. -/
def pA : Project := mkNewItem { id := some "alpha", name := some "A" } 1 "T0"

/-- A create body with string tags. -/
def bodyTagStr : ProjectInput := { tags := .str "a, b,c", id := some "p1" }

/-- The record created from `bodyTagStr` at time 5 / "T". -/
def itemTagStr : Project := mkNewItem bodyTagStr 5 "T"

/-- A create body with id `beta`. -/
def bodyB : ProjectInput := { id := some "beta", name := some "B" }

/-- The record created from `bodyB` at time 5 / "T". -/
def itemB : Project := mkNewItem bodyB 5 "T"

/-- A create body whose supplied id contains uppercase letters. -/
def bodyAbc : ProjectInput := { id := some "ABC", name := some "Foo" }

/-- Provider-call outcome used by concrete callback runs (no token). -/
def envIdle : OAuthEnv := ⟨false, none, none, 0, ""⟩

/-! ## Shared lemmas -/

/-- Cookies with no legacy `session=1` value and whose `sid` (if truthy)
names no unexpired stored session yield no session at all. -/
theorem getSession_eq_none (store : List (String × StoredSession))
    (cookies : List (String × String)) (now : Nat)
    (hleg : getCookie cookies "session" ≠ some "1")
    (hsid : ∀ sid, getCookie cookies "sid" = some sid → sid ≠ "" →
      ∀ s, lookupSid store sid = some s → s.exp ≤ now) :
    getSession store cookies now = none := by
  unfold getSession
  cases h : getCookie cookies "sid" with
  | none => simp [h, hleg]
  | some sid =>
    by_cases hs : sid = ""
    · simp [h, hs, hleg]
    · cases hl : lookupSid store sid with
      | none => simp [h, hs, hl, hleg]
      | some s =>
        have hle := hsid sid h hs s hl
        have hlt : ¬ now < s.exp := by omega
        simp [h, hs, hl, hlt, hleg]

/-- With the legacy `session=1` cookie present and no usable `sid`,
`getSession` falls back to the hard-coded local admin session. -/
theorem getSession_some_legacy (store : List (String × StoredSession))
    (cookies : List (String × String)) (now : Nat)
    (hleg : getCookie cookies "session" = some "1")
    (hsid : ∀ sid, getCookie cookies "sid" = some sid → sid ≠ "" →
      ∀ s, lookupSid store sid = some s → s.exp ≤ now) :
    getSession store cookies now = some (.legacy "local" "admin") := by
  unfold getSession
  cases h : getCookie cookies "sid" with
  | none => simp [h, hleg]
  | some sid =>
    by_cases hs : sid = ""
    · simp [h, hs, hleg]
    · cases hl : lookupSid store sid with
      | none => simp [h, hs, hl, hleg]
      | some s =>
        have hle := hsid sid h hs s hl
        have hlt : ¬ now < s.exp := by omega
        simp [h, hs, hl, hlt, hleg]

/-- `findIndex` misses every list whose records all have a different id. -/
theorem updateList_eq_none (data : ProjectInput) (i t : String)
    (l : List Project) (h : ∀ q ∈ l, q.id ≠ i) :
    updateList data i t l = none := by
  induction l with
  | nil => rfl
  | cons q rest ih =>
    have hq : q.id ≠ i := h q (by simp)
    have hrest : ∀ r ∈ rest, r.id ≠ i := fun r hr => h r (by simp [hr])
    simp [updateList, hq, ih hrest]

/-- Filtering out an id that occurs nowhere leaves the list unchanged. -/
theorem filter_id_ne_self (i : String) (l : List Project)
    (h : ∀ q ∈ l, q.id ≠ i) :
    l.filter (fun q => !decide (q.id = i)) = l := by
  induction l with
  | nil => rfl
  | cons q rest ih =>
    have hq : q.id ≠ i := h q (by simp)
    have hrest : ∀ r ∈ rest, r.id ≠ i := fun r hr => h r (by simp [hr])
    simp [hq]
    exact hrest

/-- A keyed `update … where day=d and page=p` commutes with looking the row
up, for any per-row change `f` that preserves the key columns. -/
theorem find_bump (d p : String) (f : DailyRow → DailyRow)
    (hd : ∀ r, (f r).day = r.day) (hp2 : ∀ r, (f r).page = r.page) :
    ∀ l : List DailyRow,
      (l.map (fun r => if rowKey d p r then f r else r)).find? (rowKey d p)
        = (l.find? (rowKey d p)).map f := by
  intro l
  induction l with
  | nil => rfl
  | cons r t ih =>
    by_cases hr : rowKey d p r = true
    · have hfr : rowKey d p (f r) = true := by
        simp [rowKey] at hr ⊢
        simp [hd r, hp2 r, hr]
      simp [hr, List.find?_cons_of_pos, hfr]
    · have hr' : rowKey d p r = false := by simpa using hr
      simp [hr', List.find?_cons_of_neg, ih]

/-- `find?` skips a first block in which nothing matches. -/
theorem find_append_of_none {α : Type} (pr : α → Bool) (l1 l2 : List α)
    (h : l1.find? pr = none) : (l1 ++ l2).find? pr = l2.find? pr := by
  induction l1 with
  | nil => rfl
  | cons a t ih =>
    cases ha : pr a with
    | true =>
      rw [List.find?_cons_of_pos _ ha] at h
      exact absurd h (by simp)
    | false =>
      rw [List.find?_cons_of_neg _ (by simp [ha])] at h
      rw [List.cons_append, List.find?_cons_of_neg _ (by simp [ha])]
      exact ih h

/-- After the insert-if-absent step the `(d,p)` row always exists, and it is
the old row when there was one, the zero row otherwise. -/
theorem find_ensureRow (d p : String) (l : List DailyRow) :
    (ensureRow d p l).find? (rowKey d p)
      = some ((l.find? (rowKey d p)).getD ⟨d, p, 0, 0⟩) := by
  unfold ensureRow
  by_cases h : l.any (rowKey d p) = true
  · rw [if_pos h]
    rcases List.any_eq_true.mp h with ⟨x, hx, hpx⟩
    cases hf : l.find? (rowKey d p) with
    | none =>
      rw [List.find?_eq_none] at hf
      exact absurd hpx (hf x hx)
    | some r => rfl
  · have h' : l.any (rowKey d p) = false := by simpa using h
    rw [if_neg (by simp [h'])]
    have hnone : l.find? (rowKey d p) = none := by
      rw [List.find?_eq_none]
      intro x hx hpx
      have hco : l.any (rowKey d p) = true := List.any_eq_true.mpr ⟨x, hx, hpx⟩
      simp [hco] at h'
    rw [find_append_of_none _ _ _ hnone, hnone]
    simp [List.find?_cons, rowKey]

/-- Effect of one beacon on the `metrics_uniques` table. -/
theorem seen_recordView (st : MetricsState) (d p v : String) :
    (recordView st d p v).seen
      = if (d, p, v) ∈ st.seen then st.seen else st.seen ++ [(d, p, v)] := by
  unfold recordView
  by_cases h : (d, p, v) ∈ st.seen <;> simp [h]

/-- Effect of one beacon on the `(d,p)` counter: views rise by one always,
uniques rise by one exactly when the `(d,p,v)` triple is new. -/
theorem getCounter_recordView (st : MetricsState) (d p v : String) :
    getCounter (recordView st d p v) d p
      = ((getCounter st d p).1 + 1,
         (getCounter st d p).2 + if (d, p, v) ∈ st.seen then 0 else 1) := by
  have hb1 := find_bump d p (fun r => { r with views := r.views + 1 })
    (fun r => rfl) (fun r => rfl)
  have hb2 := find_bump d p (fun r => { r with uniques := r.uniques + 1 })
    (fun r => rfl) (fun r => rfl)
  have he := find_ensureRow d p st.daily
  unfold recordView getCounter bumpViews bumpUniques
  by_cases h : (d, p, v) ∈ st.seen
  · simp only [h, if_pos, if_true]
    rw [hb1 (ensureRow d p st.daily), he]
    cases hf : st.daily.find? (rowKey d p) <;> simp [hf]
  · simp only [h, if_neg, if_false]
    rw [hb2, hb1 (ensureRow d p st.daily), he]
    cases hf : st.daily.find? (rowKey d p) <;> simp [hf, h]

/-! ## Claim C1 -/

/-- C1: the claim says every request whose decoded path resolves outside the
public asset root is rejected with 400 and no outside file is served.  The
`safeJoin` of `src/unnamed/part_002` only checks a string prefix, so the
decoded path `/../public-secrets/key.txt` resolves to the sibling directory
`/srv/app/public-secrets` — outside the root — yet passes the check, and the
dispatcher hands that outside path to the static-file pipeline instead of
answering 400.  The repository's own fixed variant
(`src/My-Nodesite/server.js`, `path.relative`-based) rejects the same input,
confirming the intent the claim states. -/
theorem c1_traversal_escape_bug :
    safeJoin "/srv/app/public" "/../public-secrets/key.txt"
      = some "/srv/app/public-secrets/key.txt"
    ∧ underRoot "/srv/app/public" "/srv/app/public-secrets/key.txt" = false
    ∧ handle ⟨[], []⟩ ⟨"GET", "/../public-secrets/key.txt", [], {}⟩ 0 0 "T"
        "/srv/app/public"
      = (⟨[], []⟩, .staticPipeline "/srv/app/public-secrets/key.txt")
    ∧ Reply.staticPipeline "/srv/app/public-secrets/key.txt" ≠ .plainText 400
    ∧ safeJoinRel "/srv/app/public" "/../public-secrets/key.txt" = none := by
  decide

/-! ## Claim C2 -/

/-- C2 counterexample: a callback presenting the pending state `"abc"` but no
`code` parameter leaves `"abc"` in the pending set, so the claim's ``state is
removed on first use regardless of outcome'' fails as stated. -/
theorem c2_pending_state_survives :
    callbackStep ⟨["abc"], []⟩ none (some "abc") envIdle "" "sid1" 0 100
      = (⟨["abc"], []⟩, .redirect "/?login=1&error=oauth_state")
    ∧ "abc" ∈ (callbackStep ⟨["abc"], []⟩ none (some "abc") envIdle "" "sid1"
        0 100).1.oauthStates := by
  decide

/-- C2 (amended): a callback whose `state` is missing, empty, or not pending
changes nothing (in particular creates no session) and redirects with the
`oauth_state` error flag; and when a pending state is presented together
with a truthy `code`, that state is removed from the pending set no matter
how the rest of the flow turns out. -/
theorem c2_state_guard
    (st : AuthState) (codeQ stateQ : Option String) (env : OAuthEnv)
    (adminUser sid : String) (now ttl : Nat) :
    ((∀ s, stateQ = some s → s = "" ∨ s ∉ st.oauthStates) →
      callbackStep st codeQ stateQ env adminUser sid now ttl
        = (st, .redirect "/?login=1&error=oauth_state"))
    ∧ (∀ s, stateQ = some s → s ≠ "" → s ∈ st.oauthStates →
        truthyStr codeQ = true →
        s ∉ (callbackStep st codeQ stateQ env adminUser sid now ttl).1.oauthStates) := by
  constructor
  · intro hbad
    have hg : truthyStr codeQ = false ∨ truthyStr stateQ = false ∨
        stateQ.getD "" ∉ st.oauthStates := by
      cases hq : stateQ with
      | none => right; left; simp [truthyStr]
      | some s =>
        rcases hbad s hq with hs | hs
        · right; left; simp [truthyStr, hs]
        · right; right; simp [hs]
    unfold callbackStep
    rw [if_pos hg]
  · intro s hq hs hmem hc
    have hg : ¬ (truthyStr codeQ = false ∨ truthyStr stateQ = false ∨
        stateQ.getD "" ∉ st.oauthStates) := by
      intro hcon
      rcases hcon with h | h | h
      · rw [hc] at h; exact absurd h (by simp)
      · subst hq; simp [truthyStr, hs] at h
      · subst hq; simp at h; exact h hmem
    have hout : (callbackStep st codeQ stateQ env adminUser sid now ttl).1.oauthStates
        = setRemove st.oauthStates (stateQ.getD "") := by
      unfold callbackStep
      rw [if_neg hg]
      dsimp only
      split_ifs <;> rfl
    rw [hout]
    subst hq
    simp [setRemove]

/-- C2 witness: a callback with an unknown state changes nothing, and one
presenting a pending state with a code consumes it. -/
theorem c2_state_guard_witness :
    callbackStep ⟨["x"], []⟩ (some "c") (some "zzz") envIdle "" "sid1" 0 100
      = (⟨["x"], []⟩, .redirect "/?login=1&error=oauth_state")
    ∧ "abc" ∉ (callbackStep ⟨["abc"], []⟩ (some "c") (some "abc") envIdle ""
        "sid1" 0 100).1.oauthStates :=
  ⟨(c2_state_guard ⟨["x"], []⟩ (some "c") (some "zzz") envIdle "" "sid1" 0 100).1
      (fun s hs => by injection hs with h; subst h; right; decide),
   (c2_state_guard ⟨["abc"], []⟩ (some "c") (some "abc") envIdle "" "sid1" 0 100).2
      "abc" rfl (by decide) (by decide) (by decide)⟩

/-! ## Claim C3 -/

/-- C3 counterexample: a DELETE whose cookies hold no `sid` at all — only the
legacy `session=1` value — is not answered 401; it deletes the stored record
and answers 204, so the claim fails as stated. -/
theorem c3_legacy_cookie_mutates :
    handle ⟨[pA], []⟩ ⟨"DELETE", "/api/projects/alpha", ckLeg, {}⟩ 0 5 "T" "/pub"
      = (⟨[], []⟩, .json 204)
    ∧ Reply.json 204 ≠ .jsonErr 401 "Unauthorized" := by
  decide

/-- C3 (amended): a POST/PUT/PATCH/DELETE to a `/api/projects…` path whose
cookies carry no truthy `sid`, or a `sid` absent from the session store, or
one whose stored expiry has passed — and also no legacy `session=1` cookie —
is answered 401 with a JSON error and leaves the whole server state
(projects and sessions) unchanged. -/
theorem c3_mutation_gate_401
    (srv : Srv) (m p : String) (cookies : List (String × String))
    (body : ProjectInput) (now nowMs : Nat) (nowIso pubDir : String)
    (hm : m = "POST" ∨ m = "PUT" ∨ m = "PATCH" ∨ m = "DELETE")
    (hp : strStarts p "/api/projects" = true)
    (hleg : getCookie cookies "session" ≠ some "1")
    (hsid : ∀ sid, getCookie cookies "sid" = some sid → sid ≠ "" →
      ∀ s, lookupSid srv.sessions sid = some s → s.exp ≤ now) :
    handle srv ⟨m, p, cookies, body⟩ now nowMs nowIso pubDir
      = (srv, .jsonErr 401 "Unauthorized") := by
  have hsess : getSession srv.sessions cookies now = none :=
    getSession_eq_none srv.sessions cookies now hleg hsid
  have hview : p ≠ "/api/metrics/view" := by
    intro hc; subst hc; exact absurd hp (by decide)
  rcases hm with hm | hm | hm | hm <;> subst hm <;>
    simp [handle, hsess, hp, hview, projectsApi]

/-- C3 witness: a cookie-less DELETE on a nonempty store gets 401 and
changes nothing. -/
theorem c3_mutation_gate_401_witness :
    handle ⟨[pA], sessA⟩ ⟨"DELETE", "/api/projects/alpha", [], {}⟩ 99 5 "T" "/pub"
      = (⟨[pA], sessA⟩, .jsonErr 401 "Unauthorized") :=
  c3_mutation_gate_401 ⟨[pA], sessA⟩ "DELETE" "/api/projects/alpha" [] {} 99 5 "T" "/pub"
    (by decide) (by decide) (by decide)
    (fun sid hs => by simp [getCookie] at hs)

/-! ## Claim C4 -/

/-- C4 counterexample: when the cookies carry both a valid `sid` and
`session=1`, `getSession` consults the session store and returns the stored
GitHub session, not the legacy local-admin session, so the claim's
``for every request whose cookies include session=1'' fails as stated. -/
theorem c4_sid_wins_over_legacy :
    getSession sessA (ckSid ++ ckLeg) 0
      = some (.stored ⟨.github "admin" 1 "", 10⟩)
    ∧ getSession sessA (ckSid ++ ckLeg) 0 ≠ some (.legacy "local" "admin") := by
  decide

/-- C4 (amended): whenever the cookies include `session=1` and carry no
truthy `sid` naming an unexpired stored session, `getSession` returns the
legacy session (provider "local", name "admin") with no expiry check —
`now` is arbitrary — and such a request passes the authentication gate: a
POST to `/api/projects` creates a record without any OAuth login. -/
theorem c4_legacy_backdoor
    (srv : Srv) (cookies : List (String × String)) (body : ProjectInput)
    (now nowMs : Nat) (nowIso pubDir : String)
    (hleg : getCookie cookies "session" = some "1")
    (hsid : ∀ sid, getCookie cookies "sid" = some sid → sid ≠ "" →
      ∀ s, lookupSid srv.sessions sid = some s → s.exp ≤ now) :
    getSession srv.sessions cookies now = some (.legacy "local" "admin")
    ∧ handle srv ⟨"POST", "/api/projects", cookies, body⟩ now nowMs nowIso pubDir
        = ({ srv with projects := srv.projects ++ [mkNewItem body nowMs nowIso] },
           .jsonProject 201 (mkNewItem body nowMs nowIso)) := by
  have hs := getSession_some_legacy srv.sessions cookies now hleg hsid
  have hsegs : pathSegs "/api/projects" = ["api", "projects"] := by decide
  have hss : strStarts "/api/projects" "/api/projects" = true := by decide
  refine ⟨hs, ?_⟩
  simp [handle, projectsApi, hs, hsegs, hss]

/-- C4 witness: with only the legacy cookie and an empty session store, a
create succeeds. -/
theorem c4_legacy_backdoor_witness :
    getSession [] ckLeg 0 = some (.legacy "local" "admin")
    ∧ handle ⟨[], []⟩ ⟨"POST", "/api/projects", ckLeg, bodyB⟩ 0 5 "T" "/pub"
        = (⟨[itemB], []⟩, .jsonProject 201 itemB) :=
  c4_legacy_backdoor ⟨[], []⟩ ckLeg bodyB 0 5 "T" "/pub" (by decide)
    (fun sid hs => by simp [getCookie, ckLeg] at hs)

/-! ## Claim C5 -/

/-- C5 counterexample: an authenticated DELETE of an id absent from storage
answers 204 (success), not a not-found outcome, so the DELETE half of the
claim fails as stated (storage is indeed unchanged). -/
theorem c5_delete_absent_is_204 :
    handle ⟨[pA], sessA⟩ ⟨"DELETE", "/api/projects/zzz", ckSid, {}⟩ 0 5 "T" "/pub"
      = (⟨[pA], sessA⟩, .json 204)
    ∧ Reply.json 204 ≠ .jsonErr 404 "Not found" := by
  decide

/-- C5 (amended): for an id absent from storage, an authenticated PUT/PATCH
answers 404 "Not found" and leaves the state unchanged, while an
authenticated DELETE answers 204 (success, no content) and also leaves the
state unchanged. -/
theorem c5_absent_id_outcomes
    (srv : Srv) (m p i : String) (cookies : List (String × String))
    (body : ProjectInput) (now nowMs : Nat) (nowIso pubDir : String)
    (hp : strStarts p "/api/projects" = true)
    (hseg : (pathSegs p)[2]? = some i)
    (hauth : (getSession srv.sessions cookies now).isSome = true)
    (hid : ∀ q ∈ srv.projects, q.id ≠ i) :
    ((m = "PUT" ∨ m = "PATCH") →
      handle srv ⟨m, p, cookies, body⟩ now nowMs nowIso pubDir
        = (srv, .jsonErr 404 "Not found"))
    ∧ handle srv ⟨"DELETE", p, cookies, body⟩ now nowMs nowIso pubDir
        = (srv, .json 204) := by
  have hview : p ≠ "/api/metrics/view" := by
    intro hc; subst hc; exact absurd hp (by decide)
  have hupd := updateList_eq_none body i nowIso srv.projects hid
  have hfil := filter_id_ne_self i srv.projects hid
  constructor
  · intro hm
    rcases hm with hm | hm <;> subst hm <;>
      simp [handle, hp, hview, projectsApi, hauth, hseg, hupd]
  · simp [handle, hp, hview, projectsApi, hauth, hseg, hfil]

/-- C5 witness: PUT and DELETE of the absent id `zzz` on a store holding
only `alpha`. -/
theorem c5_absent_id_outcomes_witness :
    handle ⟨[pA], sessA⟩ ⟨"PUT", "/api/projects/zzz", ckSid, {}⟩ 0 5 "T" "/pub"
      = (⟨[pA], sessA⟩, .jsonErr 404 "Not found")
    ∧ handle ⟨[pA], sessA⟩ ⟨"DELETE", "/api/projects/zzz", ckSid, {}⟩ 0 5 "T" "/pub"
      = (⟨[pA], sessA⟩, .json 204) :=
  have h := c5_absent_id_outcomes ⟨[pA], sessA⟩ "PUT" "/api/projects/zzz" "zzz"
    ckSid {} 0 5 "T" "/pub" (by decide) (by decide) (by decide) (by decide)
  ⟨h.1 (Or.inl rfl), h.2⟩

/-! ## Claim C6 -/

/-- C6 counterexample: after an authenticated create on a store already
holding `alpha`, the new record sits at the end of the stored list, and a
subsequent GET returns it last, not first, so the claim fails as stated. -/
theorem c6_created_listed_last :
    (handle ⟨[pA], sessA⟩ ⟨"POST", "/api/projects", ckSid, bodyB⟩ 0 5 "T" "/pub").1.projects
      = [pA, itemB]
    ∧ (handle ⟨[pA, itemB], sessA⟩ ⟨"GET", "/api/projects", [], {}⟩ 0 6 "T2" "/pub").2
      = .jsonProjects 200 [pA, itemB]
    ∧ [pA, itemB].head? ≠ some itemB := by
  decide

/-- C6 (amended): in file mode `list()` returns the records in storage order
with no sorting; an authenticated create appends the new record at the end,
a subsequent GET `/api/projects` returns exactly the old list with the new
record appended, and the new record is therefore last, not first. -/
theorem c6_create_append_order
    (srv : Srv) (cookies cookies2 : List (String × String))
    (body body2 : ProjectInput) (now nowMs now2 nowMs2 : Nat)
    (nowIso nowIso2 pubDir : String)
    (hauth : (getSession srv.sessions cookies now).isSome = true) :
    (handle srv ⟨"POST", "/api/projects", cookies, body⟩ now nowMs nowIso pubDir).1.projects
      = srv.projects ++ [mkNewItem body nowMs nowIso]
    ∧ (handle srv ⟨"POST", "/api/projects", cookies, body⟩ now nowMs nowIso pubDir).2
      = .jsonProject 201 (mkNewItem body nowMs nowIso)
    ∧ (handle (handle srv ⟨"POST", "/api/projects", cookies, body⟩ now nowMs nowIso pubDir).1
        ⟨"GET", "/api/projects", cookies2, body2⟩ now2 nowMs2 nowIso2 pubDir).2
      = .jsonProjects 200 (srv.projects ++ [mkNewItem body nowMs nowIso])
    ∧ (srv.projects ++ [mkNewItem body nowMs nowIso]).getLast?
      = some (mkNewItem body nowMs nowIso) := by
  have hsegs : pathSegs "/api/projects" = ["api", "projects"] := by decide
  have hss : strStarts "/api/projects" "/api/projects" = true := by decide
  have hview : ("/api/projects" : String) ≠ "/api/metrics/view" := by decide
  refine ⟨?_, ?_, ?_, List.getLast?_concat _⟩ <;>
    simp [handle, projectsApi, hauth, hsegs, hss, hview]

/-- C6 witness: creating `beta` after `alpha` appends it. -/
theorem c6_create_append_order_witness :
    (handle ⟨[pA], sessA⟩ ⟨"POST", "/api/projects", ckSid, bodyB⟩ 0 5 "T" "/pub").1.projects
      = [pA] ++ [itemB]
    ∧ ([pA] ++ [itemB]).getLast? = some itemB :=
  have h := c6_create_append_order ⟨[pA], sessA⟩ ckSid [] bodyB {} 0 5 0 6 "T" "T2"
    "/pub" (by decide)
  ⟨h.1, h.2.2.2⟩

/-! ## Claim C7 -/

/-- C7: tag normalisation round-trips.  Creating with the string
`"a, b,c"` stores and reads back `["a","b","c"]` (shown end-to-end through
the dispatcher in file mode and through the SQL join/explode pair), creating
with the list `["a","b"]` reads back `["a","b"]`, and a string input whose
split equals a list input produces the same canonical tags. -/
theorem c7_tag_round_trip :
    normTags (.str "a, b,c") = ["a", "b", "c"]
    ∧ normTags (.list ["a", "b"]) = ["a", "b"]
    ∧ handle ⟨[], sessA⟩ ⟨"POST", "/api/projects", ckSid, bodyTagStr⟩ 0 5 "T" "/pub"
        = (⟨[itemTagStr], sessA⟩, .jsonProject 201 itemTagStr)
    ∧ itemTagStr.tags = .list ["a", "b", "c"]
    ∧ (handle ⟨[itemTagStr], sessA⟩ ⟨"GET", "/api/projects/p1", [], {}⟩ 0 6 "T2" "/pub").2
        = .jsonProject 200 itemTagStr
    ∧ itemTagStr.tags
        = (mkNewItem { tags := .list ["a", "b", "c"], id := some "p1" } 5 "T").tags
    ∧ splitTags (String.intercalate "," (normTags (.str "a, b,c"))) = ["a", "b", "c"]
    ∧ splitTags (String.intercalate "," (normTags (.list ["a", "b"]))) = ["a", "b"]
    ∧ (∀ s l, s ≠ "" → splitTags s = l → normTags (.str s) = normTags (.list l)) := by
  refine ⟨by decide, by decide, by decide, by decide, by decide, by decide,
    by decide, by decide, ?_⟩
  intro s l hs hl
  simp [normTags, hs, hl]

/-- C7 witness: the string `"a b"` and the list `["a","b"]` denote the same
tags and normalise identically. -/
theorem c7_tag_round_trip_witness :
    normTags (.str "a b") = normTags (.list ["a", "b"]) :=
  c7_tag_round_trip.2.2.2.2.2.2.2.2 "a b" ["a", "b"] (by decide) (by decide)

/-! ## Claim C8 -/

/-- C8: starting from a `(day,page)` counter that does not exist yet, two
beacons with the same visitor id yield `views = 2, uniques = 1`; with two
distinct visitor ids they yield `views = 2, uniques = 2`.  In general one
beacon raises views by one unconditionally and uniques by one exactly when
the `(day,page,visitor)` triple is new, and a nonempty visitor cookie is
reused as the visitor id. -/
theorem c8_view_beacon_counts (st : MetricsState) (d p v1 v2 : String)
    (h0 : getCounter st d p = (0, 0))
    (h1 : (d, p, v1) ∉ st.seen) (h2 : (d, p, v2) ∉ st.seen) :
    getCounter (recordView (recordView st d p v1) d p v1) d p = (2, 1)
    ∧ (v1 ≠ v2 → getCounter (recordView (recordView st d p v1) d p v2) d p = (2, 2))
    ∧ (∀ st' d' p' v', getCounter (recordView st' d' p' v') d' p'
        = ((getCounter st' d' p').1 + 1,
           (getCounter st' d' p').2 + if (d', p', v') ∈ st'.seen then 0 else 1))
    ∧ (∀ v mintedId, v ≠ "" → resolveVid (some v) mintedId = v) := by
  have hseen1 : (d, p, v1) ∈ (recordView st d p v1).seen := by
    rw [seen_recordView]
    simp [h1]
  refine ⟨?_, ?_, fun st' d' p' v' => getCounter_recordView st' d' p' v',
    fun v mintedId hv => by simp [resolveVid, hv]⟩
  · rw [getCounter_recordView, getCounter_recordView, h0]
    simp [h1, hseen1]
  · intro hne
    have hseen2 : (d, p, v2) ∉ (recordView st d p v1).seen := by
      rw [seen_recordView]
      simp [h1, h2]
      exact fun hv => hne hv.symm
    rw [getCounter_recordView, getCounter_recordView, h0]
    simp [h1, hseen2]

/-- C8 witness: the two-beacon scenarios from the empty metrics state. -/
theorem c8_view_beacon_counts_witness :
    getCounter (recordView (recordView ⟨[], []⟩ "2025-01-01" "home" "aa")
        "2025-01-01" "home" "aa") "2025-01-01" "home" = (2, 1)
    ∧ getCounter (recordView (recordView ⟨[], []⟩ "2025-01-01" "home" "aa")
        "2025-01-01" "home" "bb") "2025-01-01" "home" = (2, 2) :=
  have h := c8_view_beacon_counts ⟨[], []⟩ "2025-01-01" "home" "aa" "bb"
    (by decide) (by decide) (by decide)
  ⟨h.1, h.2.1 (by decide)⟩

/-! ## Claim C9 -/

/-- C9 counterexample: `GET /api/metrics/view` — a known API path with an
unsupported method — is not answered 405; it falls through to the
static-file/SPA pipeline, so the claim fails as stated. -/
theorem c9_metrics_get_serves_spa :
    (handle ⟨[], []⟩ ⟨"GET", "/api/metrics/view", [], {}⟩ 0 0 "T" "/pub").2
      = .staticPipeline "/pub/api/metrics/view"
    ∧ (handle ⟨[], []⟩ ⟨"GET", "/api/metrics/view", [], {}⟩ 0 0 "T" "/pub").2
      ≠ .jsonErr 405 "Method not allowed" := by
  decide

/-- C9 (amended): only the `/api/projects…` routes have a
method-not-allowed fallback: an authenticated request to `/api/projects`
with a method other than GET/POST gets 405 with a JSON body and no state
change, while requests to `/api/me`, `/api/metrics/view` and
`/api/metrics/summary` with unsupported methods fall through to the
static-file/SPA code instead. -/
theorem c9_method_guard_reality :
    (∀ (srv : Srv) cookies body now nowMs nowIso pubDir m, m ≠ "GET" →
      (handle srv ⟨m, "/api/me", cookies, body⟩ now nowMs nowIso pubDir).1 = srv
      ∧ isStaticBranch
          (handle srv ⟨m, "/api/me", cookies, body⟩ now nowMs nowIso pubDir).2 = true)
    ∧ (∀ (srv : Srv) cookies body now nowMs nowIso pubDir m, m ≠ "POST" →
      isStaticBranch
        (handle srv ⟨m, "/api/metrics/view", cookies, body⟩ now nowMs nowIso pubDir).2 = true)
    ∧ (∀ (srv : Srv) cookies body now nowMs nowIso pubDir m, m ≠ "GET" →
      isStaticBranch
        (handle srv ⟨m, "/api/metrics/summary", cookies, body⟩ now nowMs nowIso pubDir).2 = true)
    ∧ (∀ (srv : Srv) cookies body now nowMs nowIso pubDir m,
        m ≠ "GET" → m ≠ "POST" →
        (getSession srv.sessions cookies now).isSome = true →
        handle srv ⟨m, "/api/projects", cookies, body⟩ now nowMs nowIso pubDir
          = (srv, .jsonErr 405 "Method not allowed")) := by
  have h1 : strStarts "/api/me" "/api/projects" = false := by decide
  have h2 : strStarts "/api/metrics/view" "/api/projects" = false := by decide
  have h3 : strStarts "/api/metrics/summary" "/api/projects" = false := by decide
  have h4 : strStarts "/api/projects" "/api/projects" = true := by decide
  have hsegs : pathSegs "/api/projects" = ["api", "projects"] := by decide
  refine ⟨?_, ?_, ?_, ?_⟩
  · intro srv cookies body now nowMs nowIso pubDir m hm
    constructor
    · cases hf : safeJoin pubDir "/api/me" <;>
        simp [handle, hm, h1, hf]
    · cases hf : safeJoin pubDir "/api/me" <;>
        simp [handle, hm, h1, hf, isStaticBranch]
  · intro srv cookies body now nowMs nowIso pubDir m hm
    cases hf : safeJoin pubDir "/api/metrics/view" <;>
      simp [handle, hm, h2, hf, isStaticBranch]
  · intro srv cookies body now nowMs nowIso pubDir m hm
    cases hf : safeJoin pubDir "/api/metrics/summary" <;>
      simp [handle, hm, h3, hf, isStaticBranch]
  · intro srv cookies body now nowMs nowIso pubDir m hG hP hauth
    simp [handle, hG, hP, h4, hsegs, projectsApi, hauth]

/-- C9 witness: one concrete instance of each conjunct. -/
theorem c9_method_guard_reality_witness :
    isStaticBranch (handle ⟨[], []⟩ ⟨"POST", "/api/me", [], {}⟩ 0 0 "T" "/pub").2 = true
    ∧ isStaticBranch
        (handle ⟨[], []⟩ ⟨"GET", "/api/metrics/view", [], {}⟩ 0 0 "T" "/pub").2 = true
    ∧ isStaticBranch
        (handle ⟨[], []⟩ ⟨"POST", "/api/metrics/summary", [], {}⟩ 0 0 "T" "/pub").2 = true
    ∧ handle ⟨[], sessA⟩ ⟨"OPTIONS", "/api/projects", ckSid, {}⟩ 0 0 "T" "/pub"
        = (⟨[], sessA⟩, .jsonErr 405 "Method not allowed") :=
  ⟨(c9_method_guard_reality.1 ⟨[], []⟩ [] {} 0 0 "T" "/pub" "POST" (by decide)).2,
   c9_method_guard_reality.2.1 ⟨[], []⟩ [] {} 0 0 "T" "/pub" "GET" (by decide),
   c9_method_guard_reality.2.2.1 ⟨[], []⟩ [] {} 0 0 "T" "/pub" "POST" (by decide),
   c9_method_guard_reality.2.2.2 ⟨[], sessA⟩ ckSid {} 0 0 "T" "/pub" "OPTIONS"
     (by decide) (by decide) (by decide)⟩

/-! ## Claim C10 -/

/-- C10 counterexample: an authenticated create whose valid payload supplies
the URL-safe id `"ABC"` stores `"abc"` — the created record's id does not
equal the input — so the claim's ``fields equal the input'' fails as
stated. -/
theorem c10_supplied_id_rewritten :
    (handle ⟨[], sessA⟩ ⟨"POST", "/api/projects", ckSid, bodyAbc⟩ 0 5 "T" "/pub").2
      = .jsonProject 201 (mkNewItem bodyAbc 5 "T")
    ∧ (mkNewItem bodyAbc 5 "T").id = "abc"
    ∧ bodyAbc.id = some "ABC"
    ∧ ("abc" : String) ≠ "ABC" := by
  decide

/-- C10 (amended): an authenticated create of a record new to storage is
answered 201 and leaves exactly one matching record in storage; omitted (or
empty-string) optional fields get the defaults — name "Untitled", type
"other", status "active", description/repoUrl/websiteUrl/image "", tags [],
featured false — nonempty provided values are kept except that a provided id
is canonicalised by `sanitizeId` (lowercased, characters outside
`[a-z0-9-_]` replaced by `-`), the id is generated from the clock when
absent, and `createdAt = updatedAt`. -/
theorem c10_create_defaults
    (srv : Srv) (cookies : List (String × String)) (data : ProjectInput)
    (now nowMs : Nat) (nowIso pubDir : String)
    (hauth : (getSession srv.sessions cookies now).isSome = true)
    (hfresh : mkNewItem data nowMs nowIso ∉ srv.projects) :
    (handle srv ⟨"POST", "/api/projects", cookies, data⟩ now nowMs nowIso pubDir).2
      = .jsonProject 201 (mkNewItem data nowMs nowIso)
    ∧ (handle srv ⟨"POST", "/api/projects", cookies, data⟩ now nowMs nowIso pubDir).1.projects.count
        (mkNewItem data nowMs nowIso) = 1
    ∧ (mkNewItem data nowMs nowIso).createdAt = (mkNewItem data nowMs nowIso).updatedAt
    ∧ (data.id = none → (mkNewItem data nowMs nowIso).id = sanitizeId (Nat.repr nowMs))
    ∧ (∀ s, data.id = some s → s ≠ "" → (mkNewItem data nowMs nowIso).id = sanitizeId s)
    ∧ (data.name = none → (mkNewItem data nowMs nowIso).name = "Untitled")
    ∧ (∀ s, data.name = some s → s ≠ "" → (mkNewItem data nowMs nowIso).name = s)
    ∧ (data.type = none → (mkNewItem data nowMs nowIso).type = "other")
    ∧ (∀ s, data.type = some s → s ≠ "" → (mkNewItem data nowMs nowIso).type = s)
    ∧ (data.status = none → (mkNewItem data nowMs nowIso).status = "active")
    ∧ (∀ s, data.status = some s → s ≠ "" → (mkNewItem data nowMs nowIso).status = s)
    ∧ (data.description = none → (mkNewItem data nowMs nowIso).description = "")
    ∧ (∀ s, data.description = some s → (mkNewItem data nowMs nowIso).description = s)
    ∧ (data.repoUrl = none → (mkNewItem data nowMs nowIso).repoUrl = "")
    ∧ (∀ s, data.repoUrl = some s → (mkNewItem data nowMs nowIso).repoUrl = s)
    ∧ (data.websiteUrl = none → (mkNewItem data nowMs nowIso).websiteUrl = "")
    ∧ (∀ s, data.websiteUrl = some s → (mkNewItem data nowMs nowIso).websiteUrl = s)
    ∧ (data.image = none → (mkNewItem data nowMs nowIso).image = "")
    ∧ (∀ s, data.image = some s → (mkNewItem data nowMs nowIso).image = s)
    ∧ (mkNewItem data nowMs nowIso).tags = .list (normTags data.tags)
    ∧ (data.tags = .absent → (mkNewItem data nowMs nowIso).tags = .list [])
    ∧ (data.featured = none → (mkNewItem data nowMs nowIso).featured = false)
    ∧ (∀ b, data.featured = some b → (mkNewItem data nowMs nowIso).featured = b) := by
  have hsegs : pathSegs "/api/projects" = ["api", "projects"] := by decide
  have hss : strStarts "/api/projects" "/api/projects" = true := by decide
  refine ⟨?_, ?_, rfl, ?_, ?_, ?_, ?_, ?_, ?_, ?_, ?_, ?_, ?_, ?_, ?_, ?_, ?_, ?_, ?_,
    rfl, ?_, ?_, ?_⟩
  · simp [handle, projectsApi, hauth, hsegs, hss]
  · simp only [handle, projectsApi, hauth, hsegs, hss]
    simp [hauth, List.count_append, List.count_eq_zero.mpr hfresh]
  all_goals first
    | (intro h; simp [mkNewItem, orDefault, normTags, h])
    | (intro s h hs; simp [mkNewItem, orDefault, h, hs])
    | (intro s h; simp [mkNewItem, orDefault, h]; intro hs; simp [hs])
    | (intro s h; simp [mkNewItem, orDefault, h])

/-- C10 witness: creating `beta` (name "B") on an empty store. -/
theorem c10_create_defaults_witness :
    (handle ⟨[], sessA⟩ ⟨"POST", "/api/projects", ckSid, bodyB⟩ 0 5 "T" "/pub").2
      = .jsonProject 201 (mkNewItem bodyB 5 "T")
    ∧ (handle ⟨[], sessA⟩ ⟨"POST", "/api/projects", ckSid, bodyB⟩ 0 5 "T" "/pub").1.projects.count
        (mkNewItem bodyB 5 "T") = 1
    ∧ (mkNewItem bodyB 5 "T").createdAt = (mkNewItem bodyB 5 "T").updatedAt
    ∧ (mkNewItem bodyB 5 "T").name = "B" :=
  have h := c10_create_defaults ⟨[], sessA⟩ ckSid bodyB 0 5 "T" "/pub"
    (by decide) (by decide)
  ⟨h.1, h.2.1, h.2.2.1, h.2.2.2.2.2.2.1 "B" rfl (by decide)⟩

end Portfolio
